import Mathlib

/-!
Verification of the Turbidity Snapshot Engine of the TasPorts public
water-quality dashboard.

The repository contains several historical iterations of the same
browser application.  Each iteration is embedded in its own namespace:

* `AppJs`   — the file `src/app.js` (an early iteration: placeholder
  thresholds, no feed-address validation);
* `Part001` — `src/unnamed/part_001` (adds feed-address validation);
* `Part002` — `src/unnamed/part_002` (the snapshot builder
  `buildTurbiditySnapshot`, non-throwing fetch wrapper, `hoursSince`);
* `Part003` — `src/unnamed/part_003` (the latest iteration: per-site,
  per-window thresholds, window-specific feed-key resolution).

Modelling conventions, used consistently below:

* JavaScript numbers are modelled as exact rationals (`ℚ`); the special
  values `NaN`/`Infinity`/`-Infinity`, which the code only ever tests with
  `Number.isFinite`, are modelled by the `JsNum` wrapper or by `Option`.
* `Date.parse` and `Date.now()` are host functions; they are passed in as
  parameters: `dateParse : String → Option Int` returns the epoch
  milliseconds of a timestamp string, `none` when the string does not
  parse to a finite instant, and `now : Int` is the evaluation instant in
  epoch milliseconds.
* The network is an oracle `String → FetchOutcome` giving, per URL, either
  a network failure or an HTTP response (status and body text).
* JavaScript objects used as string-keyed maps are modelled as association
  lists searched front-first (`lookupObj`); object assignment in a loop is
  modelled by building the entry list in loop order and reversing it, so
  that a later assignment to the same key wins on lookup.
* Functions that can `throw` return `Except String`; fetchers additionally
  return the list of URLs for which a network fetch was actually issued,
  so that "rejected before being fetched" is expressible.
-/

/-- First-match lookup in a JavaScript-object-as-association-list. -/
def lookupObj {α : Type} : List (String × α) → String → Option α
  | [], _ => none
  | (k, v) :: rest, key => if k = key then some v else lookupObj rest key

/-- A parsed latest-reading record `{ timestamp, value }`. -/
structure Reading where
  timestamp : String
  value : ℚ
deriving DecidableEq, Repr

/-- Outcome of one network fetch: the request threw (network failure) or
an HTTP response with a status code and a body came back. -/
inductive FetchOutcome where
  | netError : FetchOutcome
  | response (status : Nat) (body : String) : FetchOutcome

/-- Model of `resp.ok` of the fetch API: status in the range 200–299. -/
def httpOk (status : Nat) : Prop := 200 ≤ status ∧ status ≤ 299

instance (status : Nat) : Decidable (httpOk status) := by
  unfold httpOk; infer_instance

/-- Split of a character list on a separator character (model of
`String.prototype.split` with a one-character separator). -/
def charSplit (sep : Char) (cs : List Char) : List (List Char) :=
  cs.foldr
    (fun c acc =>
      match acc with
      | [] => [[]]
      | g :: gs => if c = sep then [] :: g :: gs else (c :: g) :: gs)
    [[]]

/-- Whitespace trim on both ends of a character list (model of
`String.prototype.trim` over the whitespace that occurs in feeds). -/
def trimChars (cs : List Char) : List Char :=
  ((cs.dropWhile Char.isWhitespace).reverse.dropWhile Char.isWhitespace).reverse

/-- Model of `String.prototype.toLowerCase` (ASCII). -/
def jsToLower (s : String) : String := String.mk (s.data.map Char.toLower)

/-- Model of `String.prototype.toUpperCase` (ASCII). -/
def jsToUpper (s : String) : String := String.mk (s.data.map Char.toUpper)

/-- Decimal value of an ASCII digit. -/
def decVal (c : Char) : Nat := c.toNat - '0'.toNat

/-- Value of an ASCII hexadecimal digit. -/
def hexVal (c : Char) : Nat :=
  if c.isDigit then c.toNat - '0'.toNat
  else if 'a' ≤ c ∧ c ≤ 'f' then c.toNat - 'a'.toNat + 10
  else if 'A' ≤ c ∧ c ≤ 'F' then c.toNat - 'A'.toNat + 10
  else 0

/-- ASCII hexadecimal digit test. -/
def isHexDigit (c : Char) : Bool :=
  c.isDigit || ('a' ≤ c && c ≤ 'f') || ('A' ≤ c && c ≤ 'F')

/-- Binary digit test. -/
def isBinDigit (c : Char) : Bool := c == '0' || c == '1'

/-- Octal digit test. -/
def isOctDigit (c : Char) : Bool := '0' ≤ c && c ≤ '7'

/-- Digit-string value in a given base. -/
def digitsVal (base : Nat) (val : Char → Nat) (ds : List Char) : Nat :=
  ds.foldl (fun n c => n * base + val c) 0

/-- Radix-prefixed integer literal (after `0x`/`0b`/`0o`): all remaining
characters must be digits of the base and there must be at least one. -/
def parseRadix (base : Nat) (pred : Char → Bool) (val : Char → Nat)
    (cs : List Char) : Option ℚ :=
  if !cs.isEmpty && cs.all pred then some ((digitsVal base val cs : Nat) : ℚ)
  else none

/-- Exponent suffix of a decimal literal: a non-empty digit string,
scaling the mantissa by the corresponding power of ten. -/
def applyExponent (mant : ℚ) (pos : Bool) (ds : List Char) : Option ℚ :=
  if !ds.isEmpty && ds.all Char.isDigit then
    let e := digitsVal 10 decVal ds
    some (if pos then mant * (10 : ℚ) ^ e else mant / (10 : ℚ) ^ e)
  else none

/-- Decimal numeric literal: digits, an optional fractional part, an
optional exponent; any trailing garbage makes the whole string NaN. -/
def parseDec (cs : List Char) : Option ℚ :=
  let p1 := cs.span Char.isDigit
  let p2 :=
    match p1.2 with
    | '.' :: more => more.span Char.isDigit
    | _ => ([], p1.2)
  if p1.1.isEmpty && p2.1.isEmpty then none
  else
    let mant : ℚ := (digitsVal 10 decVal p1.1 : Nat) +
      ((digitsVal 10 decVal p2.1 : Nat) : ℚ) / (10 : ℚ) ^ p2.1.length
    match p2.2 with
    | [] => some mant
    | e :: r3 =>
      if e == 'e' || e == 'E' then
        match r3 with
        | '+' :: ds => applyExponent mant true ds
        | '-' :: ds => applyExponent mant false ds
        | ds => applyExponent mant true ds
      else none

/-- Unsigned part of `Number(string)`; `"Infinity"` is non-finite, hence
folded into `none` together with NaN. -/
def jsNumberMag (cs : List Char) : Option ℚ :=
  if cs = "Infinity".data then none
  else
    match cs with
    | '0' :: c :: rest =>
      if c == 'x' || c == 'X' then parseRadix 16 isHexDigit hexVal rest
      else if c == 'b' || c == 'B' then parseRadix 2 isBinDigit decVal rest
      else if c == 'o' || c == 'O' then parseRadix 8 isOctDigit decVal rest
      else parseDec cs
    | _ => parseDec cs

/-- Model of JavaScript `Number(string)` restricted to finite results:
`none` stands for NaN or an infinity (the code only ever keeps values
passing `Number.isFinite`).  The whitespace-only string converts to 0. -/
def jsNumber (s : String) : Option ℚ :=
  match trimChars s.data with
  | [] => some 0
  | '+' :: rest => jsNumberMag rest
  | '-' :: rest => (jsNumberMag rest).map (fun q => -q)
  | cs => jsNumberMag cs

/-- Test for the regex `/^\d{4}-\d{2}-\d{2}T/`: a 4-digit-year ISO date
prefix. -/
def startsWithIsoDate (s : String) : Bool :=
  match s.data with
  | y1 :: y2 :: y3 :: y4 :: d1 :: m1 :: m2 :: d2 :: a1 :: a2 :: t1 :: _ =>
    y1.isDigit && y2.isDigit && y3.isDigit && y4.isDigit && d1 == '-' &&
    m1.isDigit && m2.isDigit && d2 == '-' && a1.isDigit && a2.isDigit &&
    t1 == 'T'
  | _ => false

/-- Lines of the response body that survive the filters of the feed
parser: split on `/\r?\n/`, trim each line, drop blank lines, keep lines
beginning with the ISO date prefix.  (Splitting on `"\n"` and trimming is
equivalent to splitting on `/\r?\n/` and trimming, because a carriage
return directly before a newline is trailing whitespace of its line.) -/
def dataLinesOf (text : String) : List String :=
  ((((charSplit '\n' text.data).map trimChars).map String.mk).filter
    (fun l => l != "")).filter startsWithIsoDate

/-- Field extraction from one data line: split on comma, field 0 is the
timestamp, field 1 is converted by `Number`; fewer than two fields or a
non-finite numeric field yield `none` ("no reading"). -/
def readingFromLine (line : String) : Option Reading :=
  match charSplit ',' line.data with
  | ts :: vs :: _ =>
    match jsNumber (String.mk vs) with
    | some v => some ⟨String.mk ts, v⟩
    | none => none
  | _ => none

/-- The feed parser (`parseEagleCsvText` of part_002; the identical logic
is inlined in the fetchers of app.js, part_001 and part_003): the reading
extracted from the positionally last surviving data line, `none` when no
line survives. -/
def parseEagleCsvText (text : String) : Option Reading :=
  match (dataLinesOf text).getLast? with
  | none => none
  | some last => readingFromLine last

/-- Test for the regex
`/^https:\/\/public\.eagle\.io\/public\/data\/[a-z0-9]+/i`: the fixed
origin/path prefix, case-insensitively, followed by at least one
alphanumeric character. -/
def matchesEagleUrlPattern (s : String) : Bool :=
  let lowered := s.data.map Char.toLower
  let p := "https://public.eagle.io/public/data/".data
  p.isPrefixOf lowered &&
    (match lowered.drop p.length with
     | c :: _ => c.isDigit || ('a' ≤ c && c ≤ 'z')
     | [] => false)

/-- A JavaScript number as it may appear in a (possibly misconfigured)
threshold table: a finite value, NaN, or an infinity. -/
inductive JsNum where
  | num (q : ℚ)
  | nan
  | posInf
  | negInf
deriving DecidableEq

/-- Model of `Number.isFinite`. -/
def JsNum.isFinite : JsNum → Bool
  | num _ => true
  | _ => false

/-- One `{ amber, red }` threshold pair of the threshold table. -/
structure ThreshCfg where
  amber : JsNum
  red : JsNum
deriving DecidableEq

/-- A station/window threshold table (`TURBIDITY_THRESHOLDS` shape):
station identifier → window key → threshold pair. -/
abbrev ThresholdTable : Type := List (String × List (String × ThreshCfg))

namespace Part003

/-- The concrete `TURBIDITY_THRESHOLDS` table of part_003 (and app.js of
that iteration): only seagrass, scallops and grayling carry triggers. -/
def TURBIDITY_THRESHOLDS : ThresholdTable :=
  [("seagrass",
     [("6d", ⟨.num 4, .num (433/100)⟩), ("15d", ⟨.num 3, .num (33/10)⟩)]),
   ("scallops",
     [("6d", ⟨.num 4, .num (433/100)⟩), ("15d", ⟨.num 3, .num (33/10)⟩)]),
   ("grayling",
     [("6d", ⟨.num (17/2), .num 15⟩), ("15d", ⟨.num (49/10), .num (33/2)⟩)])]

/-- The window key actually used by part_003: the exact string `"6d"`
selects the short window, anything else (including `undefined`, modelled
as `none`) falls through to `"15d"`. -/
def effWindow (windowKey : Option String) : String :=
  if windowKey = some "6d" then "6d" else "15d"

/-- Embedding of `classifyTurbidity(stationId, windowKey, value)` of
part_003 lines 121–141.  `windowKey : Option String` models a possibly
`undefined` argument; the value is an exact rational. -/
def classifyTurbidity (table : ThresholdTable) (stationId : String)
    (windowKey : Option String) (value : ℚ) : String :=
  let sid := jsToLower stationId
  let wk := effWindow windowKey
  match lookupObj table sid with
  | none => "neutral"
  | some stationRec =>
    match lookupObj stationRec wk with
    | none => "neutral"
    | some th =>
      match th.amber, th.red with
      | .num amber, .num red =>
        let amberEff := min amber red
        let redEff := max amber red
        if value ≥ redEff then "red"
        else if value ≥ amberEff then "amber"
        else "green"
      | _, _ => "neutral"

/-- A station record as consumed by part_003: per-sensor feed maps under
the `values` field (feed-map keys such as `turbidity_6d` map to URL
strings). -/
structure Station where
  id : String
  name : String
  sensors : Option (List String)
  values : List (String × List (String × String))

/-- First truthy value among the given keys of a feed map, modelling the
chain `v.k1 || v.k2 || … || ""` (a missing key and the empty string are
both falsy). -/
def jsOrChain (v : List (String × String)) : List String → String
  | [] => ""
  | k :: ks =>
    let s := (lookupObj v k).getD ""
    if s = "" then jsOrChain v ks else s

/-- The six short-window alias keys tried by `getTurbidityUrl`. -/
def turbidity6Keys : List String :=
  ["turbidity_6d", "turbidity6", "turbidity_6", "turbidity6d",
   "turbidity_6day", "turbidity6day"]

/-- The six long-window alias keys tried by `getTurbidityUrl` before the
windowless legacy fallback. -/
def turbidity15Keys : List String :=
  ["turbidity_15d", "turbidity15", "turbidity_15", "turbidity15d",
   "turbidity_15day", "turbidity15day"]

/-- Embedding of `getTurbidityUrl(station, level, windowKey)` of part_003
lines 146–171: window-specific aliases first, then (long window only) the
windowless `turbidity` key; the empty string means "absent". -/
def getTurbidityUrl (station : Station) (level : String)
    (windowKey : Option String) : String :=
  let v := (lookupObj station.values level).getD []
  if windowKey = some "6d" then jsOrChain v turbidity6Keys
  else jsOrChain v (turbidity15Keys ++ ["turbidity"])

/-- Embedding of `isStale(isoTs)` of part_003 lines 104–109 (the same
function appears in app.js and part_001): an empty or unparseable
timestamp is reported as NOT stale; otherwise stale means strictly more
than 24 hours (86 400 000 ms) old. -/
def isStale (dateParse : String → Option Int) (now : Int)
    (isoTs : String) : Bool :=
  if isoTs = "" then false
  else
    match dateParse isoTs with
    | none => false
    | some t => decide (now - t > 24 * 60 * 60 * 1000)

end Part003

namespace Part002

/-- Constant `STALE_HOURS` of part_002. -/
def STALE_HOURS : ℚ := 24

/-- The placeholder threshold pair of part_002 (`THRESHOLDS`). -/
def THRESHOLDS : ℚ × ℚ := (5, 10)

/-- Embedding of `hoursSince(tsIso)` of part_002 lines 411–416: age of the
timestamp in hours; `none` models the `Infinity` returned for an
unparseable timestamp. -/
def hoursSince (dateParse : String → Option Int) (now : Int)
    (tsIso : String) : Option ℚ :=
  (dateParse tsIso).map (fun t => ((now - t : ℤ) : ℚ) / (1000 * 60 * 60))

/-- Embedding of `isStale(tsIso)` of part_002 lines 424–426:
`hoursSince(tsIso) > STALE_HOURS`, where `Infinity > 24` is true, so an
unparseable timestamp counts as stale. -/
def isStale (dateParse : String → Option Int) (now : Int)
    (tsIso : String) : Bool :=
  match hoursSince dateParse now tsIso with
  | none => true
  | some h => decide (h > STALE_HOURS)

/-- Embedding of `classifyValue(value)` of part_002 lines 418–422
(placeholder thresholds amber 5 / red 10). -/
def classifyValue (value : ℚ) : String :=
  if value ≥ THRESHOLDS.2 then "red"
  else if value ≥ THRESHOLDS.1 then "amber"
  else "green"

/-- Per-sensor fetch result of part_002: `{ ok: false, reason }` or
`{ ok: true, timestamp, value, stale }`. -/
inductive SensorRes where
  | err (reason : String) : SensorRes
  | ok (timestamp : String) (value : ℚ) (stale : Bool) : SensorRes

/-- Embedding of the non-throwing `fetchLatestFromEagleDataUrl(dataUrl)`
of part_002 lines 428–458: a falsy URL, a network failure, a non-2xx
response and an unparseable body all come back as `err` with a reason;
the promise never rejects (the function is total). -/
def fetchLatestFromEagleDataUrl (dateParse : String → Option Int)
    (now : Int) (oracle : String → FetchOutcome) (dataUrl : String) :
    SensorRes :=
  if dataUrl = "" then .err "Missing link"
  else
    match oracle dataUrl with
    | .netError => .err "Fetch failed (network)"
    | .response status body =>
      if ¬ httpOk status then .err ("Fetch failed (HTTP " ++ toString status ++ ")")
      else
        match parseEagleCsvText body with
        | none => .err "No data returned"
        | some parsed =>
          .ok parsed.timestamp parsed.value (isStale dateParse now parsed.timestamp)

/-- A station record as consumed by part_002's snapshot builder:
`sensors` is `none` when the configuration has no array there (the code
then defaults to `["top"]`), and `values` maps a sensor level to its
parameter→URL feed map. -/
structure StationCfg where
  id : String
  name : String
  sensors : Option (List String)
  values : List (String × List (String × String))

/-- Model of `Array.isArray(s.sensors) ? s.sensors : ["top"]`. -/
def sensorsOf (s : StationCfg) : List String := s.sensors.getD ["top"]

/-- Model of `s?.values?.[level]?.turbidity || ""`. -/
def urlOf (s : StationCfg) (level : String) : String :=
  ((lookupObj s.values level).bind (fun m => lookupObj m "turbidity")).getD ""

/-- The per-sensor key: the station id and the sensor level joined by a colon. -/
def sensorKey (s : StationCfg) (level : String) : String :=
  s.id ++ ":" ++ level

/-- All `(station, sensor)` keys in configuration order. -/
def allSensorKeys (stations : List StationCfg) : List String :=
  stations.flatMap (fun s => (sensorsOf s).map (sensorKey s))

/-- Ok and not stale (the filter `x.res && x.res.ok && !x.res.stale`). -/
def isOkFresh : Option SensorRes → Bool
  | some (.ok _ _ false) => true
  | _ => false

/-- Ok but stale (the filter `x.res && x.res.ok && x.res.stale`). -/
def isOkStale : Option SensorRes → Bool
  | some (.ok _ _ true) => true
  | _ => false

/-- The worst-classification loop of part_002 lines 521–526: starting
from `"green"`, a red value short-circuits, an amber value upgrades the
accumulator. -/
def worstLoop (worst : String) : List (String × Option SensorRes) → String
  | [] => worst
  | x :: xs =>
    match x.2 with
    | some (.ok _ v _) =>
      let c := classifyValue v
      if c = "red" then "red"
      else if c = "amber" then worstLoop "amber" xs
      else worstLoop worst xs
    | _ => worstLoop worst xs

/-- Model of `toFixed(2)` on an exact rational: round to the nearest hundredth,
ties toward the larger value, then print with two decimals. -/
def toFixed2 (v : ℚ) : String :=
  let n : ℤ := Int.floor (v * 100 + 1 / 2)
  let a := n.natAbs
  let sign := if n < 0 then "-" else ""
  let ip := a / 100
  let fp := a % 100
  sign ++ toString ip ++ "." ++ (if fp < 10 then "0" else "") ++ toString fp

/-- Model of `formatFnu(value)` of part_002 line 460. -/
def formatFnu (v : ℚ) : String := toFixed2 v ++ " FNU"

/-- One popup summary line (part_002 lines 534–540); `fmtTime` stands for
the host's `toLocaleString` date formatting. -/
def summaryLine (fmtTime : String → String) (level : String)
    (r : Option SensorRes) : String :=
  match r with
  | none => jsToUpper level ++ ": — (No result)"
  | some (.err reason) => jsToUpper level ++ ": — (" ++ reason ++ ")"
  | some (.ok ts v true) =>
    jsToUpper level ++ ": " ++ formatFnu v ++ " (STALE: " ++ fmtTime ts ++ ")"
  | some (.ok ts v false) =>
    jsToUpper level ++ ": " ++ formatFnu v ++ " (" ++ fmtTime ts ++ ")"

/-- Station-level record of the snapshot (part_002): the marker class,
the popup summary lines, and whether any sensor was ok and fresh. -/
structure StationSummary where
  className : String
  summaryLines : List String
  anyOk : Bool

/-- The per-station pass of `buildTurbiditySnapshot` (part_002 lines
504–543) for one station, reading back the per-sensor map. -/
def stationSummary (fmtTime : String → String)
    (perSensor : List (String × SensorRes)) (s : StationCfg) :
    StationSummary :=
  let results := (sensorsOf s).map
    (fun level => (level, lookupObj perSensor (sensorKey s level)))
  let okResults := results.filter (fun x => isOkFresh x.2)
  let staleResults := results.filter (fun x => isOkStale x.2)
  let stationClass :=
    if !okResults.isEmpty then worstLoop "green" okResults
    else if !staleResults.isEmpty then "gray"
    else "gray"
  let lines := results.map (fun x => summaryLine fmtTime x.1 x.2)
  ⟨stationClass, lines, !okResults.isEmpty⟩

/-- The whole snapshot: per-sensor map and per-station map. -/
structure Snapshot where
  perSensor : List (String × SensorRes)
  perStation : List (String × StationSummary)

/-- Embedding of `buildTurbiditySnapshot(stations)` of part_002 lines
480–546.  The two JS objects are modelled as association lists; entries
are produced in loop order and the lists reversed, so that on lookup a
later object assignment to the same key wins, as in JavaScript. -/
def buildTurbiditySnapshot (dateParse : String → Option Int) (now : Int)
    (oracle : String → FetchOutcome) (fmtTime : String → String)
    (stations : List StationCfg) : Snapshot :=
  let perSensor :=
    (stations.flatMap (fun s => (sensorsOf s).map (fun level =>
      (sensorKey s level,
       fetchLatestFromEagleDataUrl dateParse now oracle (urlOf s level))))).reverse
  let perStation :=
    (stations.map (fun s => (s.id, stationSummary fmtTime perSensor s))).reverse
  ⟨perSensor, perStation⟩

end Part002

namespace Part003

/-- Embedding of the throwing `fetchLatestFromEagleDataUrl(dataUrl)` of
part_003 lines 74–102.  The first component is the function's outcome
(`Except.error` models a thrown/rejected promise, `Except.ok` the
returned reading or `null`); the second component is the list of URLs for
which a network fetch was actually issued.  A missing URL and a URL not
matching the eagle.io pattern are rejected before any fetch. -/
def fetchLatestFromEagleDataUrl (oracle : String → FetchOutcome)
    (dataUrl : String) : Except String (Option Reading) × List String :=
  if dataUrl = "" then (.error "Missing data URL", [])
  else if ¬ matchesEagleUrlPattern dataUrl then
    (.error ("Unexpected data URL format: " ++ dataUrl), [])
  else
    match oracle dataUrl with
    | .netError => (.error "network failure", [dataUrl])
    | .response status body =>
      if ¬ httpOk status then
        (.error ("Fetch failed: " ++ toString status ++ " for " ++ dataUrl),
         [dataUrl])
      else (.ok (parseEagleCsvText body), [dataUrl])

end Part003

namespace Part001

/-- Embedding of `fetchLatestFromEagleDataUrl(dataUrl)` of part_001 lines
311–343, which is the same validating fetcher as part_003's (URL-pattern
check before the fetch, throw on non-2xx, `null` when no data line
parses).  Same modelling as `Part003.fetchLatestFromEagleDataUrl`. -/
def fetchLatestFromEagleDataUrl (oracle : String → FetchOutcome)
    (dataUrl : String) : Except String (Option Reading) × List String :=
  if dataUrl = "" then (.error "Missing data URL", [])
  else if ¬ matchesEagleUrlPattern dataUrl then
    (.error ("Unexpected data URL format: " ++ dataUrl), [])
  else
    match oracle dataUrl with
    | .netError => (.error "network failure", [dataUrl])
    | .response status body =>
      if ¬ httpOk status then
        (.error ("Fetch failed: " ++ toString status ++ " for " ++ dataUrl),
         [dataUrl])
      else (.ok (parseEagleCsvText body), [dataUrl])

end Part001

namespace AppJs

/-- Embedding of `fetchLatestFromEagleDataUrl(dataUrl)` of src/app.js
lines 21–39: this early iteration performs NO validation of the address —
it issues the network fetch for whatever URL it is given, then throws on
a non-2xx response and parses the body like the other variants.  Same
modelling as `Part003.fetchLatestFromEagleDataUrl`. -/
def fetchLatestFromEagleDataUrl (oracle : String → FetchOutcome)
    (dataUrl : String) : Except String (Option Reading) × List String :=
  match oracle dataUrl with
  | .netError => (.error "network failure", [dataUrl])
  | .response status body =>
    if ¬ httpOk status then
      (.error ("Fetch failed: " ++ toString status ++ " for " ++ dataUrl),
       [dataUrl])
    else (.ok (parseEagleCsvText body), [dataUrl])

/-- Embedding of `isStale(isoTs)` of src/app.js lines 48–53 — identical
to part_003's `isStale` (empty or unparseable timestamps report as not
stale; the 24-hour boundary is exclusive). -/
def isStale (dateParse : String → Option Int) (now : Int)
    (isoTs : String) : Bool :=
  if isoTs = "" then false
  else
    match dateParse isoTs with
    | none => false
    | some t => decide (now - t > 24 * 60 * 60 * 1000)

end AppJs

/-- The same threshold pair with amber and red interchanged. -/
def ThreshCfg.swap (t : ThreshCfg) : ThreshCfg := ⟨t.red, t.amber⟩

/-- A threshold table with every amber/red pair interchanged (a
misconfigured table, which the defensive min/max reordering of
`classifyTurbidity` is meant to protect against). -/
def swapThresholds (table : ThresholdTable) : ThresholdTable :=
  table.map (fun p => (p.1, p.2.map (fun q => (q.1, q.2.swap))))

/-- Helper lemmas about association-list lookup. -/
theorem lookupObj_isSome_of_mem {α : Type} {l : List (String × α)}
    {k : String} {v : α} (h : (k, v) ∈ l) : (lookupObj l k).isSome := by
  induction l with
  | nil => cases h
  | cons p rest ih =>
    obtain ⟨a, b⟩ := p
    rcases List.mem_cons.mp h with heq | hmem
    · cases heq
      simp [lookupObj]
    · by_cases hk : a = k
      · simp [lookupObj, hk]
      · simpa [lookupObj, hk] using ih hmem

theorem lookupObj_eq_none_of_forall {α : Type} {l : List (String × α)}
    {k : String} (h : ∀ p ∈ l, p.1 ≠ k) : lookupObj l k = none := by
  induction l with
  | nil => rfl
  | cons p rest ih =>
    obtain ⟨a, b⟩ := p
    have ha : a ≠ k := h (a, b) (List.mem_cons_self _ _)
    simpa [lookupObj, ha] using ih (fun q hq => h q (List.mem_cons_of_mem _ hq))

theorem lookupObj_map_value {α β : Type} (f : α → β)
    (l : List (String × α)) (k : String) :
    lookupObj (l.map (fun p => (p.1, f p.2))) k = (lookupObj l k).map f := by
  induction l with
  | nil => rfl
  | cons p rest ih =>
    obtain ⟨a, b⟩ := p
    by_cases hk : a = k
    · simp [lookupObj, hk]
    · simpa [lookupObj, hk] using ih

theorem lookupObj_eq_some_of_nodup {α : Type} {l : List (String × α)}
    (hnd : (l.map Prod.fst).Nodup) {k : String} {v : α} (h : (k, v) ∈ l) :
    lookupObj l k = some v := by
  induction l with
  | nil => cases h
  | cons p rest ih =>
    obtain ⟨a, b⟩ := p
    simp only [List.map_cons, List.nodup_cons] at hnd
    rcases List.mem_cons.mp h with heq | hmem
    · cases heq
      simp [lookupObj]
    · have ha : a ≠ k := by
        intro heq
        subst heq
        exact hnd.1 (List.mem_map.mpr ⟨(a, v), hmem, rfl⟩)
      simpa [lookupObj, ha] using ih hnd.2 hmem

/-- C7: classification is invariant under swapping the configured amber
and red thresholds of every entry, because the classifier uses
amberEffective = min(amber, red) and redEffective = max(amber, red). -/
theorem classifyTurbidity_swap_invariant (table : ThresholdTable)
    (stationId : String) (windowKey : Option String) (value : ℚ) :
    Part003.classifyTurbidity (swapThresholds table) stationId windowKey value =
      Part003.classifyTurbidity table stationId windowKey value := by
  simp only [Part003.classifyTurbidity, swapThresholds, lookupObj_map_value]
  cases h1 : lookupObj table (jsToLower stationId) with
  | none => simp
  | some stationRec =>
    simp only [Option.map_some', lookupObj_map_value]
    cases h2 : lookupObj stationRec (Part003.effWindow windowKey) with
    | none => simp
    | some th =>
      simp only [Option.map_some']
      obtain ⟨ta, tr⟩ := th
      cases ta <;> cases tr <;>
        simp [ThreshCfg.swap, min_comm, max_comm]

/-- C10: every window key other than the exact string "6d" (misspellings
such as "6D" or "15day", and `undefined`, modelled as `none`) is silently
coerced to the long window, both in classification and in feed-address
resolution. -/
theorem windowKey_defaults_to_long_window (table : ThresholdTable)
    (stationId : String) (station : Part003.Station) (level : String)
    (value : ℚ) (w : Option String) (hw : w ≠ some "6d") :
    Part003.classifyTurbidity table stationId w value =
      Part003.classifyTurbidity table stationId (some "15d") value ∧
    Part003.getTurbidityUrl station level w =
      Part003.getTurbidityUrl station level (some "15d") := by
  constructor
  · unfold Part003.classifyTurbidity Part003.effWindow
    simp [hw]
  · unfold Part003.getTurbidityUrl
    simp [hw]

/-- Witness for C10 at the concrete misspelled window key "6D". -/
theorem windowKey_defaults_to_long_window_witness :
    Part003.classifyTurbidity Part003.TURBIDITY_THRESHOLDS "seagrass"
      (some "6D") (7/2) =
    Part003.classifyTurbidity Part003.TURBIDITY_THRESHOLDS "seagrass"
      (some "15d") (7/2) :=
  (windowKey_defaults_to_long_window Part003.TURBIDITY_THRESHOLDS "seagrass"
    ⟨"seagrass", "Seagrass", none, []⟩ "top" (7/2) (some "6D")
    (by decide)).1

/-- C6: classification is Neutral whenever the station identifier is
absent from the threshold table (case-insensitively: the hypotheses state
that the table keys are lowercase-normalized, as they are in the source
tables, and that no key matches the lowercased station id), whenever the
window record is absent, and whenever a configured threshold fails the
`Number.isFinite` check; and the classifier is total, always returning
one of the four level strings (it never throws and the value is only ever
compared in the finite-finite branch, never against NaN). -/
theorem classifyTurbidity_neutral_cases (table : ThresholdTable)
    (stationId : String) (windowKey : Option String) (value : ℚ) :
    ((∀ p ∈ table, jsToLower p.1 = p.1) →
      (∀ p ∈ table, jsToLower p.1 ≠ jsToLower stationId) →
      Part003.classifyTurbidity table stationId windowKey value = "neutral") ∧
    (∀ stationRec, lookupObj table (jsToLower stationId) = some stationRec →
      lookupObj stationRec (Part003.effWindow windowKey) = none →
      Part003.classifyTurbidity table stationId windowKey value = "neutral") ∧
    (∀ stationRec th,
      lookupObj table (jsToLower stationId) = some stationRec →
      lookupObj stationRec (Part003.effWindow windowKey) = some th →
      (th.amber.isFinite = false ∨ th.red.isFinite = false) →
      Part003.classifyTurbidity table stationId windowKey value = "neutral") ∧
    (Part003.classifyTurbidity table stationId windowKey value = "green" ∨
     Part003.classifyTurbidity table stationId windowKey value = "amber" ∨
     Part003.classifyTurbidity table stationId windowKey value = "red" ∨
     Part003.classifyTurbidity table stationId windowKey value = "neutral") := by
  refine ⟨?_, ?_, ?_, ?_⟩
  · intro hkeys habs
    have hnone : lookupObj table (jsToLower stationId) = none := by
      refine lookupObj_eq_none_of_forall ?_
      intro p hp
      have := habs p hp
      rwa [hkeys p hp] at this
    simp [Part003.classifyTurbidity, hnone]
  · intro stationRec h1 h2
    simp [Part003.classifyTurbidity, h1, h2]
  · intro stationRec th h1 h2 hfin
    obtain ⟨ta, tr⟩ := th
    cases ta <;> cases tr <;>
      simp_all [Part003.classifyTurbidity, JsNum.isFinite]
  · simp only [Part003.classifyTurbidity]
    cases h1 : lookupObj table (jsToLower stationId) with
    | none => simp [h1]
    | some stationRec =>
      simp only [h1]
      cases h2 : lookupObj stationRec (Part003.effWindow windowKey) with
      | none => simp [h2]
      | some th =>
        simp only [h2]
        obtain ⟨ta, tr⟩ := th
        cases ta <;> cases tr <;> dsimp only <;>
          first
          | (split_ifs <;> simp)
          | simp

/-- Witness for C6: the untriggered station "forth" is absent from the
concrete threshold table, so any value classifies Neutral. -/
theorem classifyTurbidity_neutral_cases_witness :
    Part003.classifyTurbidity Part003.TURBIDITY_THRESHOLDS "forth"
      (some "6d") 1000 = "neutral" :=
  (classifyTurbidity_neutral_cases Part003.TURBIDITY_THRESHOLDS "forth"
    (some "6d") 1000).1 (by decide) (by decide)

/-- C1: for a station present (case-insensitively, the keys of the tables
in the source being lowercase) in the threshold table, with finite amber
and red thresholds configured for the effective window, classification is
the trichotomy value ≥ redEffective ⇒ "red", amberEffective ≤ value <
redEffective ⇒ "amber", value < amberEffective ⇒ "green", where
amberEffective = min(amber, red) and redEffective = max(amber, red); in
particular, on the concrete short-window seagrass thresholds
{amber 4.0, red 4.33}: 3.9 ⇒ green, 4.0 ⇒ amber, 4.329999 ⇒ amber,
4.33 ⇒ red. -/
theorem classifyTurbidity_threshold_trichotomy :
    (∀ (table : ThresholdTable) (stationId : String)
       (windowKey : Option String) (value a r : ℚ)
       (stationRec : List (String × ThreshCfg)) (th : ThreshCfg),
       lookupObj table (jsToLower stationId) = some stationRec →
       lookupObj stationRec (Part003.effWindow windowKey) = some th →
       th.amber = JsNum.num a → th.red = JsNum.num r →
       ((value ≥ max a r →
          Part003.classifyTurbidity table stationId windowKey value = "red") ∧
        (min a r ≤ value → value < max a r →
          Part003.classifyTurbidity table stationId windowKey value = "amber") ∧
        (value < min a r →
          Part003.classifyTurbidity table stationId windowKey value = "green"))) ∧
    Part003.classifyTurbidity Part003.TURBIDITY_THRESHOLDS "seagrass"
      (some "6d") (39/10) = "green" ∧
    Part003.classifyTurbidity Part003.TURBIDITY_THRESHOLDS "seagrass"
      (some "6d") 4 = "amber" ∧
    Part003.classifyTurbidity Part003.TURBIDITY_THRESHOLDS "seagrass"
      (some "6d") (4329999/1000000) = "amber" ∧
    Part003.classifyTurbidity Part003.TURBIDITY_THRESHOLDS "seagrass"
      (some "6d") (433/100) = "red" := by
  have hlow : jsToLower "seagrass" = "seagrass" := by decide
  refine ⟨?_, ?_, ?_, ?_, ?_⟩
  · intro table stationId windowKey value a r stationRec th h1 h2 ha hr
    obtain ⟨ta, tr⟩ := th
    simp only at ha hr
    subst ha
    subst hr
    simp only [Part003.classifyTurbidity, h1, h2]
    refine ⟨?_, ?_, ?_⟩
    · intro h
      rw [if_pos h]
    · intro hge hlt
      rw [if_neg (not_le.mpr hlt), if_pos hge]
    · intro h
      have h1n : ¬ value ≥ max a r := not_le.mpr (lt_of_lt_of_le h (min_le_max))
      have h2n : ¬ value ≥ min a r := not_le.mpr h
      rw [if_neg h1n, if_neg h2n]
  all_goals
    norm_num [Part003.classifyTurbidity, Part003.TURBIDITY_THRESHOLDS,
      Part003.effWindow, lookupObj, hlow]

/-- Witness for C1's quantified part, at the concrete grayling 15-day
thresholds {amber 4.9, red 16.5} and value 20 (≥ the effective red). -/
theorem classifyTurbidity_threshold_trichotomy_witness :
    Part003.classifyTurbidity Part003.TURBIDITY_THRESHOLDS "grayling"
      (some "15d") 20 = "red" := by
  have hlow : jsToLower "grayling" = "grayling" := by decide
  have h1 : lookupObj Part003.TURBIDITY_THRESHOLDS (jsToLower "grayling") =
      some [("6d", ⟨.num (17/2), .num 15⟩),
            ("15d", ⟨.num (49/10), .num (33/2)⟩)] := by
    rw [hlow]
    simp [Part003.TURBIDITY_THRESHOLDS, lookupObj]
  have h2 : lookupObj
      [(("6d" : String), (⟨.num (17/2), .num 15⟩ : ThreshCfg)),
       ("15d", ⟨.num (49/10), .num (33/2)⟩)]
      (Part003.effWindow (some "15d")) =
      some ⟨.num (49/10), .num (33/2)⟩ := by
    simp [Part003.effWindow, lookupObj]
  exact (classifyTurbidity_threshold_trichotomy.1 Part003.TURBIDITY_THRESHOLDS
    "grayling" (some "15d") 20 (49/10) (33/2) _ _ h1 h2 rfl rfl).1
    (by rw [ge_iff_le, max_le_iff]; norm_num)

/-- Keys that are absent from the feed map contribute nothing to a
truthy-fallback chain. -/
theorem jsOrChain_append_of_none {v : List (String × String)}
    {ks : List String} (h : ∀ k ∈ ks, lookupObj v k = none)
    (ks2 : List String) :
    Part003.jsOrChain v (ks ++ ks2) = Part003.jsOrChain v ks2 := by
  induction ks with
  | nil => rfl
  | cons k rest ih =>
    have hk : lookupObj v k = none := h k (List.mem_cons_self _ _)
    simp only [List.cons_append, Part003.jsOrChain, hk, Option.getD_none,
      if_pos rfl]
    exact ih (fun q hq => h q (List.mem_cons_of_mem _ hq))

/-- A one-key chain is exactly the defaulted lookup of that key. -/
theorem jsOrChain_singleton (v : List (String × String)) (k : String) :
    Part003.jsOrChain v [k] = (lookupObj v k).getD "" := by
  by_cases h : (lookupObj v k).getD "" = "" <;>
    simp [Part003.jsOrChain, h]

/-- C5: for a station whose feed map for the given sensor has only the
windowless "turbidity" key and none of the twelve window-specific alias
keys, resolving the long window falls back to the windowless key's
address, and resolving the short window returns the empty string
("absent"), not an error. -/
theorem getTurbidityUrl_windowless_fallback (station : Part003.Station)
    (level : String) (v : List (String × String)) (url : String)
    (hv : lookupObj station.values level = some v)
    (hturb : lookupObj v "turbidity" = some url)
    (habs : ∀ k ∈ Part003.turbidity6Keys ++ Part003.turbidity15Keys,
      lookupObj v k = none) :
    Part003.getTurbidityUrl station level (some "15d") = url ∧
    Part003.getTurbidityUrl station level (some "6d") = "" := by
  have h6 : ∀ k ∈ Part003.turbidity6Keys, lookupObj v k = none :=
    fun k hk => habs k (List.mem_append_left _ hk)
  have h15 : ∀ k ∈ Part003.turbidity15Keys, lookupObj v k = none :=
    fun k hk => habs k (List.mem_append_right _ hk)
  constructor
  · show Part003.getTurbidityUrl station level (some "15d") = url
    simp only [Part003.getTurbidityUrl, hv, Option.getD_some]
    rw [if_neg (by decide : ¬ (some "15d" = some ("6d" : String)))]
    rw [jsOrChain_append_of_none h15, jsOrChain_singleton, hturb,
      Option.getD_some]
  · show Part003.getTurbidityUrl station level (some "6d") = ""
    simp only [Part003.getTurbidityUrl, hv, Option.getD_some, if_pos rfl]
    have := jsOrChain_append_of_none h6 ([] : List String)
    simpa using this

/-- Witness for C5 at a concrete one-sensor station configured with only
the windowless turbidity key. -/
theorem getTurbidityUrl_windowless_fallback_witness :
    Part003.getTurbidityUrl
      ⟨"forth", "Forth", some ["top"],
       [("top", [("turbidity", "https://public.eagle.io/public/data/abc")])]⟩
      "top" (some "15d") = "https://public.eagle.io/public/data/abc" :=
  (getTurbidityUrl_windowless_fallback
    ⟨"forth", "Forth", some ["top"],
     [("top", [("turbidity", "https://public.eagle.io/public/data/abc")])]⟩
    "top" [("turbidity", "https://public.eagle.io/public/data/abc")]
    "https://public.eagle.io/public/data/abc"
    (by simp [lookupObj]) (by simp [lookupObj]) (by decide)).1

/-- C8: for a timestamp that parses to instant t, both staleness checks
(part_003's `isStale` on milliseconds and part_002's `isStale` via
`hoursSince`) report stale exactly when now − t strictly exceeds
24 hours = 86 400 000 ms; at exactly 24 hours neither reports stale
(the boundary is exclusive). -/
theorem isStale_exclusive_24h_boundary
    (dateParse : String → Option Int) (now t : Int) (ts : String)
    (hp : dateParse ts = some t) (hne : ts ≠ "") :
    (Part003.isStale dateParse now ts = true ↔ now - t > 86400000) ∧
    (Part002.isStale dateParse now ts = true ↔ now - t > 86400000) ∧
    (now - t = 86400000 →
      Part003.isStale dateParse now ts = false ∧
      Part002.isStale dateParse now ts = false) := by
  have h3 : Part003.isStale dateParse now ts = true ↔ now - t > 86400000 := by
    simp only [Part003.isStale, hne, if_false, hp]
    rw [decide_eq_true_iff]
    norm_num
  have h2 : Part002.isStale dateParse now ts = true ↔ now - t > 86400000 := by
    simp only [Part002.isStale, Part002.hoursSince, hp, Option.map_some',
      Part002.STALE_HOURS]
    rw [decide_eq_true_iff]
    rw [gt_iff_lt, lt_div_iff₀ (by norm_num : (0 : ℚ) < 1000 * 60 * 60)]
    rw [show ((24 : ℚ) * (1000 * 60 * 60)) = 86400000 by norm_num]
    rw [show ((86400000 : ℚ)) = ((86400000 : ℤ) : ℚ) by norm_num]
    rw [Int.cast_lt]
  refine ⟨h3, h2, ?_⟩
  intro hb
  have hnot : ¬ now - t > 86400000 := by omega
  constructor
  · rw [Bool.eq_false_iff]
    intro hc
    exact hnot (h3.mp hc)
  · rw [Bool.eq_false_iff]
    intro hc
    exact hnot (h2.mp hc)

/-- Witness for C8: one millisecond past the 24-hour boundary is stale. -/
theorem isStale_exclusive_24h_boundary_witness :
    Part003.isStale (fun s => if s = "x" then some 0 else none)
      86400001 "x" = true :=
  (isStale_exclusive_24h_boundary
    (fun s => if s = "x" then some 0 else none) 86400001 0 "x"
    (by simp) (by decide)).1.mpr (by norm_num)

/-- C4 (divergence exhibit): on an unparseable timestamp the part_003,
app.js and part_001 staleness checks return false (not stale, fail-open),
while part_002's returns true (infinitely stale, fail-closed).  The spec
mandates fail-closed (stale = true) in every case, which the fail-open
variants violate at the failing input "not-a-date" (or the empty
string).  The date parser that returns `none` everywhere models
`Date.parse` on strings that do not parse to a finite instant. -/
theorem isStale_unparseable_divergence :
    Part003.isStale (fun _ => none) 0 "not-a-date" = false ∧
    AppJs.isStale (fun _ => none) 0 "not-a-date" = false ∧
    Part003.isStale (fun _ => none) 0 "" = false ∧
    Part002.isStale (fun _ => none) 0 "not-a-date" = true := by
  refine ⟨?_, ?_, ?_, ?_⟩ <;> rfl

/-- C9 (counterexample to the claim as stated): the feed fetcher of
src/app.js lines 21–39 performs no address validation — at the concrete
non-matching address "http://evil.example/x" it issues the network fetch
(the fetch log contains the address), so it is not the case that every
feed fetcher in this repository rejects a non-matching address before
fetching. -/
theorem appjs_fetcher_fetches_unvalidated_url :
    matchesEagleUrlPattern "http://evil.example/x" = false ∧
    (AppJs.fetchLatestFromEagleDataUrl (fun _ => .response 200 "")
      "http://evil.example/x").2 = ["http://evil.example/x"] := by
  constructor
  · decide
  · rfl

/-- C9 (amended): the validating feed fetchers (part_001 lines 311–343
and part_003 lines 74–102) reject (throw on) every address that does not
match the eagle.io origin/path pattern before issuing any network fetch:
for any oracle, the fetch log stays empty and the outcome is an error. -/
theorem validating_fetchers_reject_before_fetch
    (oracle : String → FetchOutcome) (dataUrl : String)
    (h : matchesEagleUrlPattern dataUrl = false) :
    (Part003.fetchLatestFromEagleDataUrl oracle dataUrl).2 = [] ∧
    (∃ msg, (Part003.fetchLatestFromEagleDataUrl oracle dataUrl).1 =
      .error msg) ∧
    (Part001.fetchLatestFromEagleDataUrl oracle dataUrl).2 = [] ∧
    (∃ msg, (Part001.fetchLatestFromEagleDataUrl oracle dataUrl).1 =
      .error msg) := by
  by_cases hd : dataUrl = "" <;>
    simp [Part003.fetchLatestFromEagleDataUrl,
      Part001.fetchLatestFromEagleDataUrl, hd, h]

/-- Witness for C9's amended theorem at the concrete non-matching
address, with an oracle that would answer any request. -/
theorem validating_fetchers_reject_before_fetch_witness :
    (Part003.fetchLatestFromEagleDataUrl (fun _ => .response 200 "")
      "http://evil.example/x").2 = [] :=
  (validating_fetchers_reject_before_fetch (fun _ => .response 200 "")
    "http://evil.example/x" (by decide)).1

/-- C3 (counterexample to "lexicographically last"): on a feed whose
lines are NOT in chronological order, the parser returns the reading of
the positionally last surviving line, which here is lexicographically
SMALLER than the other surviving line; the reading of the
lexicographically last line has value 5, but the parser returns value 7.
-/
theorem parser_takes_positional_not_lexicographic_last :
    dataLinesOf "2025-01-02T00:00:00Z,5\n2025-01-01T00:00:00Z,7" =
      ["2025-01-02T00:00:00Z,5", "2025-01-01T00:00:00Z,7"] ∧
    ("2025-01-01T00:00:00Z,7").data < ("2025-01-02T00:00:00Z,5").data ∧
    parseEagleCsvText "2025-01-02T00:00:00Z,5\n2025-01-01T00:00:00Z,7" =
      some ⟨"2025-01-01T00:00:00Z", 7⟩ ∧
    readingFromLine "2025-01-02T00:00:00Z,5" =
      some ⟨"2025-01-02T00:00:00Z", 5⟩ ∧
    (⟨"2025-01-01T00:00:00Z", (7 : ℚ)⟩ : Reading) ≠
      ⟨"2025-01-02T00:00:00Z", 5⟩ := by
  refine ⟨by decide, by decide, ?_, ?_, ?_⟩
  · have h1 : parseEagleCsvText
        "2025-01-02T00:00:00Z,5\n2025-01-01T00:00:00Z,7" =
        some ⟨"2025-01-01T00:00:00Z",
          ((7 : ℕ) : ℚ) + ((0 : ℕ) : ℚ) / (10 : ℚ) ^ (0 : ℕ)⟩ := rfl
    rw [h1]
    norm_num
  · have h2 : readingFromLine "2025-01-02T00:00:00Z,5" =
        some ⟨"2025-01-02T00:00:00Z",
          ((5 : ℕ) : ℚ) + ((0 : ℕ) : ℚ) / (10 : ℚ) ^ (0 : ℕ)⟩ := rfl
    rw [h2]
    norm_num
  · intro h
    have := congrArg Reading.timestamp h
    simp at this

/-- C3 (amended): for every feed text with at least one surviving data
line, the parser returns the reading extracted (split on comma, field 0
the timestamp, field 1 the `Number`-parsed value) from the positionally
LAST surviving line — last in file order, not the first and not the
maximum; on the spec's chronologically ordered example feed this is the
most recent line's value 3.6. -/
theorem parseEagleCsvText_last_surviving_line :
    (∀ (text : String) (h : dataLinesOf text ≠ []),
      parseEagleCsvText text = readingFromLine ((dataLinesOf text).getLast h)) ∧
    parseEagleCsvText
      "2025-01-01T00:00:00.000Z,3.4\n2025-01-02T00:00:00.000Z,3.6" =
      some ⟨"2025-01-02T00:00:00.000Z", 18/5⟩ := by
  constructor
  · intro text h
    unfold parseEagleCsvText
    rw [List.getLast?_eq_getLast _ h]
  · have h1 : parseEagleCsvText
        "2025-01-01T00:00:00.000Z,3.4\n2025-01-02T00:00:00.000Z,3.6" =
        some ⟨"2025-01-02T00:00:00.000Z",
          ((3 : ℕ) : ℚ) + ((6 : ℕ) : ℚ) / (10 : ℚ) ^ (1 : ℕ)⟩ := rfl
    rw [h1]
    norm_num

/-- Witness for the quantified part of C3's theorem at a concrete
two-line feed. -/
theorem parseEagleCsvText_last_surviving_line_witness :
    parseEagleCsvText "2025-01-01T00:00:00Z,1\n2025-01-02T00:00:00Z,2" =
      readingFromLine "2025-01-02T00:00:00Z,2" := by
  have h := parseEagleCsvText_last_surviving_line.1
    "2025-01-01T00:00:00Z,1\n2025-01-02T00:00:00Z,2" (by decide)
  rw [h]
  rfl

/-- C2: the snapshot build never rejects (it is a total function of the
station list and of the per-feed outcomes given by the oracle, which
covers missing feed addresses, network failures, non-2xx responses and
bodies without a parseable data line): every configured
(station, sensor) pair has exactly one per-sensor entry — failed feeds
appear as `err` entries with a reason rather than aborting the build —
and every station of the configuration appears in the per-station map;
moreover (for configurations with distinct per-sensor keys, the only ones
the object-keyed JavaScript snapshot can distinguish) the entry of each
pair is exactly the fetch result for its resolved URL. -/
theorem buildTurbiditySnapshot_total_coverage
    (dateParse : String → Option Int) (now : Int)
    (oracle : String → FetchOutcome) (fmtTime : String → String)
    (stations : List Part002.StationCfg) :
    (∀ s ∈ stations, ∀ level ∈ Part002.sensorsOf s,
      (lookupObj
        (Part002.buildTurbiditySnapshot dateParse now oracle fmtTime
          stations).perSensor
        (Part002.sensorKey s level)).isSome) ∧
    (∀ s ∈ stations,
      (lookupObj
        (Part002.buildTurbiditySnapshot dateParse now oracle fmtTime
          stations).perStation s.id).isSome) ∧
    ((Part002.allSensorKeys stations).Nodup →
      ∀ s ∈ stations, ∀ level ∈ Part002.sensorsOf s,
        lookupObj
          (Part002.buildTurbiditySnapshot dateParse now oracle fmtTime
            stations).perSensor (Part002.sensorKey s level) =
        some (Part002.fetchLatestFromEagleDataUrl dateParse now oracle
          (Part002.urlOf s level))) := by
  simp only [Part002.buildTurbiditySnapshot]
  refine ⟨?_, ?_, ?_⟩
  · intro s hs level hl
    apply lookupObj_isSome_of_mem
    rw [List.mem_reverse]
    exact List.mem_flatMap.mpr
      ⟨s, hs, List.mem_map.mpr ⟨level, hl, rfl⟩⟩
  · intro s hs
    apply lookupObj_isSome_of_mem
      (v := Part002.stationSummary fmtTime _ s)
    rw [List.mem_reverse]
    exact List.mem_map.mpr ⟨s, hs, rfl⟩
  · intro hnd s hs level hl
    apply lookupObj_eq_some_of_nodup
    · rw [List.map_reverse, List.nodup_reverse, List.map_flatMap]
      have hkeys :
          (stations.flatMap fun t =>
            ((Part002.sensorsOf t).map fun lv =>
              (Part002.sensorKey t lv,
               Part002.fetchLatestFromEagleDataUrl dateParse now oracle
                 (Part002.urlOf t lv))).map Prod.fst) =
          Part002.allSensorKeys stations := by
        simp [Part002.allSensorKeys, List.map_map, Function.comp_def]
      rw [hkeys]
      exact hnd
    · rw [List.mem_reverse]
      exact List.mem_flatMap.mpr
        ⟨s, hs, List.mem_map.mpr ⟨level, hl, rfl⟩⟩

/-- Witness for C2 on a one-station configuration whose only sensor has
no configured feed address: the build still resolves and records an
error entry for the pair, and the station appears in the per-station
map. -/
theorem buildTurbiditySnapshot_total_coverage_witness :
    lookupObj
      (Part002.buildTurbiditySnapshot (fun _ => none) 0
        (fun _ => FetchOutcome.netError) (fun t => t)
        [⟨"a", "A", none, []⟩]).perSensor "a:top" =
      some (Part002.SensorRes.err "Missing link") := by
  have h := (buildTurbiditySnapshot_total_coverage (fun _ => none) 0
    (fun _ => FetchOutcome.netError) (fun t => t)
    [⟨"a", "A", none, []⟩]).2.2
    (by decide)
    ⟨"a", "A", none, []⟩ (by simp)
    "top" (by simp [Part002.sensorsOf])
  rw [show Part002.sensorKey ⟨"a", "A", none, []⟩ "top" = "a:top" from rfl] at h
  rw [h]
  rfl
